import Mathlib

/-!
Shallow embedding of `pytext/data/squad_tensorizer.py` (class `SquadTensorizer`).

The external collaborators (`Tokenizer`, `Vocabulary`, `VocabBuilder`,
`TokenTensorizer`'s own lookup and corpus-pass behaviour, and
`pad_and_tensorize`) live outside the sources; they are modelled from the
spec, each marked with a doc comment starting with "Modelled from the spec:".
Everything in the `SquadTensorizer` namespace below is translated directly
from `squad_tensorizer.py`.
-/

/-- Canonical padding symbol of the framework (external constant). -/
def PAD : String := "__PAD__"

/-- Canonical unknown symbol of the framework (external constant). -/
def UNK : String := "__UNK__"

/-- Canonical begin-of-sentence symbol (external constant). -/
def BOS : String := "__BEGIN_OF_SENTENCE__"

/-- Canonical end-of-sentence symbol (external constant). -/
def EOS : String := "__END_OF_SENTENCE__"

/-- Canonical mask symbol (external constant). -/
def MASK : String := "__MASK__"

/-- Modelled from the spec: a `Vocabulary` is an ordered token-to-id mapping
(ids are list positions) that answers a size query and a pad-id query. -/
structure Vocabulary where
  tokens : List String
  pad_idx : Nat
deriving DecidableEq, Repr

/-- Size query on a vocabulary, Python `len(vocab)`. -/
def Vocabulary.len (v : Vocabulary) : Nat := v.tokens.length

/-- Pad-id query, Python `vocab.get_pad_index()`. -/
def Vocabulary.get_pad_index (v : Vocabulary) : Nat := v.pad_idx

/-- Id lookup by token: position in the ordered token list. -/
def Vocabulary.idx_of (v : Vocabulary) (tok : String) : Nat := v.tokens.indexOf tok

/-- Modelled from the spec: a `VocabBuilder` accumulates corpus tokens in
first-seen order (deduplicated) and carries the reserved pad/unk positions. -/
structure VocabBuilder where
  pad_index : Nat
  unk_index : Nat
  seen : List String
deriving DecidableEq, Repr

/-- Modelled from the spec: the default builder used when the caller supplies
none (`vocab_builder or VocabBuilder()`). -/
def VocabBuilder.default : VocabBuilder := ⟨0, 1, []⟩

/-- Modelled from the spec: adding a token keeps first-seen order and
deduplicates. -/
def VocabBuilder.add_token (b : VocabBuilder) (tok : String) : VocabBuilder :=
  if tok ∈ b.seen then b else { b with seen := b.seen ++ [tok] }

/-- Modelled from the spec: adding every token of a column in order. -/
def VocabBuilder.add_all (b : VocabBuilder) (toks : List String) : VocabBuilder :=
  toks.foldl VocabBuilder.add_token b

/-- Modelled from the spec: finalizing the builder places the pad symbol at
id 0 and the unknown symbol at id 1 (the builder is configured with those
reserved positions), followed by the corpus tokens in first-seen order. -/
def VocabBuilder.make_vocab (b : VocabBuilder) : Vocabulary :=
  ⟨PAD :: UNK :: b.seen, b.pad_index⟩

/-- Modelled from the spec: a tokenizer turns text into an ordered sequence of
(token string, start char offset, end char offset) triples; a wordpiece-style
tokenizer additionally exposes its own token table (`tokenizer.vocab`). -/
structure Tokenizer where
  tokenize : String → List (String × Nat × Nat)
  is_word_piece : Bool
  vocab_tokens : List String

/-- One input row: document text, question text, the answer strings and their
character-offset starts (the configurable column names of the Python dict are
fixed as structure fields here). -/
structure Row where
  doc : String
  question : String
  answers : List String
  answer_starts : List Nat
deriving DecidableEq, Repr

/-- Modelled from the spec: the relevant state of a `TokenTensorizer` — which
text column it reads, its tokenizer, its (optional) vocabulary and its maximum
sequence length. -/
structure TokenTensorizer where
  get_text : Row → String
  tokenizer : Tokenizer
  vocab : Option Vocabulary
  max_seq_len : Nat

/-- Modelled from the spec: `TokenTensorizer._lookup_tokens` tokenizes its
text, truncates to the configured maximum length, and returns the token ids
together with the per-token original character start/end offsets. -/
def TokenTensorizer.lookup_tokens (t : TokenTensorizer) (text : String) :
    List Nat × List Nat × List Nat :=
  let pieces := (t.tokenizer.tokenize text).take t.max_seq_len
  let v := t.vocab.getD ⟨[], 0⟩
  (pieces.map (fun p => v.idx_of p.1),
   pieces.map (fun p => p.2.1),
   pieces.map (fun p => p.2.2))

/-- Modelled from the spec: the token strings a sub-tensorizer's corpus-pass
initializer extracts from its text column of one row. -/
def TokenTensorizer.row_tokens (t : TokenTensorizer) (r : Row) : List String :=
  (t.tokenizer.tokenize (t.get_text r)).map (fun p => p.1)

/-- `SquadTensorizer.SPAN_PAD_IDX = -100`, the sentinel for "no valid span". -/
def SPAN_PAD_IDX : Int := -100

/-- State of a `SquadTensorizer`: the two sub-tensorizers, the shared
tokenizer, the shared vocabulary and the builder field set by the corpus
pass. -/
structure SquadTensorizer where
  doc_tensorizer : TokenTensorizer
  ques_tensorizer : TokenTensorizer
  tokenizer : Tokenizer
  vocab : Option Vocabulary
  vocab_builder : Option VocabBuilder

namespace SquadTensorizer

/-- The fixed replacement map applied to a wordpiece token table in
`from_config` (`[UNK]/[PAD]/[CLS]/[SEP]/[MASK]` to the canonical symbols). -/
def replacement (tok : String) : String :=
  if tok = "[UNK]" then UNK
  else if tok = "[PAD]" then PAD
  else if tok = "[CLS]" then BOS
  else if tok = "[SEP]" then EOS
  else if tok = "[MASK]" then MASK
  else tok

/-- `SquadTensorizer.from_config`: if the tokenizer is wordpiece-style, build
the vocabulary from the tokenizer's own table with the replacement map,
otherwise leave it unset; both sub-tensorizers and the tensorizer itself
receive the same vocabulary value. -/
def from_config (tokenizer : Tokenizer) (max_doc_seq_len max_ques_seq_len : Nat) :
    SquadTensorizer :=
  let vocab : Option Vocabulary :=
    if tokenizer.is_word_piece then
      some ⟨tokenizer.vocab_tokens.map replacement,
            (tokenizer.vocab_tokens.map replacement).indexOf PAD⟩
    else none
  { doc_tensorizer := ⟨Row.doc, tokenizer, vocab, max_doc_seq_len⟩
    ques_tensorizer := ⟨Row.question, tokenizer, vocab, max_ques_seq_len⟩
    tokenizer := tokenizer
    vocab := vocab
    vocab_builder := none }

/-- State of the `initialize` generator after priming: either the vocabulary
already existed (the loop only yields, consuming rows unused), or a builder
with pad id 0 and unk id 1 is accumulating both columns' tokens. -/
inductive InitGen where
  | noop : InitGen
  | building : VocabBuilder → InitGen
deriving DecidableEq, Repr

/-- Priming `initialize` (`send(None)`): with a vocabulary present the body
skips builder creation; otherwise the supplied builder (or a fresh one) gets
`pad_index = 0` and `unk_index = 1` and both sub-initializers are primed. -/
def init_start (st : SquadTensorizer) (vb : Option VocabBuilder) : InitGen :=
  match st.vocab with
  | some _ => InitGen.noop
  | none => InitGen.building
      { vb.getD VocabBuilder.default with pad_index := 0, unk_index := 1 }

/-- One row sent into the corpus pass: in the vocabulary-exists branch the row
is consumed unused; otherwise it is forwarded to the question sub-initializer
and then the document sub-initializer, each adding its column's tokens to the
shared builder (the sub-initializer behaviour is modelled from the spec). -/
def init_send (st : SquadTensorizer) (g : InitGen) (row : Row) : InitGen :=
  match g with
  | InitGen.noop => InitGen.noop
  | InitGen.building b => InitGen.building
      ((b.add_all (st.ques_tensorizer.row_tokens row)).add_all
        (st.doc_tensorizer.row_tokens row))

/-- End-of-corpus (`GeneratorExit`): with a vocabulary present nothing
happens; otherwise the vocabulary is finalized from the accumulated builder
and stored, and both sub-initializers reach their own terminal state, setting
their vocabularies from the same builder (modelled from the spec). -/
def init_close (st : SquadTensorizer) (g : InitGen) : SquadTensorizer :=
  match g with
  | InitGen.noop => st
  | InitGen.building b =>
      let v := b.make_vocab
      { st with
          vocab := some v
          vocab_builder := some b
          doc_tensorizer := { st.doc_tensorizer with vocab := some v }
          ques_tensorizer := { st.ques_tensorizer with vocab := some v } }

/-- A whole drive of the `initialize` generator: prime, send every row of the
corpus in order, then close. -/
def init_run (st : SquadTensorizer) (vb : Option VocabBuilder) (rows : List Row) :
    SquadTensorizer :=
  st.init_close (rows.foldl (st.init_send) (st.init_start vb))

/-- `SquadTensorizer._only_pad`: true iff every entry is the sentinel. -/
def only_pad (l : List Int) : Bool := l.all (fun t => t = SPAN_PAD_IDX)

/-- Lookup in the offset-to-token-index dict built by the `enumerate` loop of
`numberize`: key `k` maps to the LAST token index whose offset equals `k`
(later assignments overwrite earlier ones), `none` when absent. -/
def offset_map_get : List Nat → Nat → Option Nat
  | [], _ => none
  | o :: rest, k =>
      match offset_map_get rest k with
      | some j => some (j + 1)
      | none => if o = k then some 0 else none

/-- The (start offset, end offset) pairs of the document tokens, zipped as in
the `enumerate(zip(orig_start_idx, orig_end_idx))` loop of `numberize`. -/
def doc_offset_pairs (st : SquadTensorizer) (row : Row) : List (Nat × Nat) :=
  (st.doc_tensorizer.lookup_tokens row.doc).2.1.zip
    (st.doc_tensorizer.lookup_tokens row.doc).2.2

/-- `answer_start_token_indices` of `numberize`: each raw character start
offset through the start-offset map, the sentinel when absent. -/
def answer_start_token_indices (st : SquadTensorizer) (row : Row) : List Int :=
  row.answer_starts.map (fun raw =>
    match offset_map_get ((st.doc_offset_pairs row).map (fun p => p.1)) raw with
    | some t => (t : Int)
    | none => SPAN_PAD_IDX)

/-- `answer_end_token_indices` of `numberize`: each key `raw start + length of
the answer string` through the end-offset map, the sentinel when absent; the
mapped index is the inclusive end of the token span. -/
def answer_end_token_indices (st : SquadTensorizer) (row : Row) : List Int :=
  (row.answer_starts.zip row.answers).map (fun p =>
    match offset_map_get ((st.doc_offset_pairs row).map (fun q => q.2)) (p.1 + p.2.length) with
    | some t => (t : Int)
    | none => SPAN_PAD_IDX)

/-- One numberized example:
(doc token ids, doc length, ques token ids, ques length, answer start token
indices, answer end token indices). -/
abbrev Numberized :=
  List Nat × Nat × List Nat × Nat × List Int × List Int

/-- `SquadTensorizer.numberize`: assert the three vocabulary sizes agree
(`none` models the fatal assertion, also when a vocabulary is missing), look
up question and document tokens, map character answer spans to token spans,
and collapse to `([SPAN_PAD_IDX], [SPAN_PAD_IDX])` when there is no answer or
every mapped start (or end) is the sentinel. -/
def numberize (st : SquadTensorizer) (row : Row) : Option Numberized :=
  match st.vocab, st.ques_tensorizer.vocab, st.doc_tensorizer.vocab with
  | some v, some qv, some dv =>
      if v.len = qv.len ∧ v.len = dv.len then
        let ques_tokens := (st.ques_tensorizer.lookup_tokens row.question).1
        let doc_tokens := (st.doc_tensorizer.lookup_tokens row.doc).1
        let s := st.answer_start_token_indices row
        let e := st.answer_end_token_indices row
        let pair : List Int × List Int :=
          if s.isEmpty ∨ e.isEmpty ∨ only_pad s ∨ only_pad e then
            ([SPAN_PAD_IDX], [SPAN_PAD_IDX])
          else (s, e)
        some (doc_tokens, doc_tokens.length, ques_tokens, ques_tokens.length,
              pair.1, pair.2)
      else none
  | _, _, _ => none

/-- Modelled from the spec: `pad_and_tensorize` pads every sequence of the
batch to the batch maximum length with the given pad value. -/
def pad_and_tensorize {α : Type} (batch : List (List α)) (pad_value : α) :
    List (List α) :=
  let max_len := (batch.map List.length).foldr max 0
  batch.map (fun s => s ++ List.replicate (max_len - s.length) pad_value)

/-- Batch maximum sequence length used by `pad_and_tensorize`. -/
def batch_max_len {α : Type} (batch : List (List α)) : Nat :=
  (batch.map List.length).foldr max 0

/-- The byte-valued pad mask `(tokens == pad_idx).byte()`: 1 where a position
equals the pad id, 0 elsewhere. -/
def byte_mask (t : List (List Nat)) (pad_idx : Nat) : List (List Nat) :=
  t.map (fun r => r.map (fun x => if x = pad_idx then 1 else 0))

/-- The batch tensor set, in the fixed output order of `tensorize`:
(doc tokens, doc lengths, doc mask, ques tokens, ques lengths, ques mask,
answer start indices, answer end indices). -/
abbrev SquadBatch :=
  List (List Nat) × List Nat × List (List Nat) × List (List Nat) × List Nat ×
    List (List Nat) × List (List Int) × List (List Int)

/-- `SquadTensorizer.tensorize`: unzip the batch per field (`zip(*batch)`
raises on an empty batch, modelled as `none`, before any tensor is produced;
a missing vocabulary also raises at the pad-id query), pad token sequences
with the vocabulary pad id, derive the byte masks, pad the answer span lists
with the sentinel, and return the eight tensors in fixed order with the
padded document tokens first. -/
def tensorize (st : SquadTensorizer) (batch : List Numberized) :
    Option SquadBatch :=
  match batch with
  | [] => none
  | _ :: _ =>
      match st.vocab with
      | none => none
      | some v =>
          let doc_tokens := batch.map (fun x => x.1)
          let doc_seq_len := batch.map (fun x => x.2.1)
          let ques_tokens := batch.map (fun x => x.2.2.1)
          let ques_seq_len := batch.map (fun x => x.2.2.2.1)
          let answer_start_idx := batch.map (fun x => x.2.2.2.2.1)
          let answer_end_idx := batch.map (fun x => x.2.2.2.2.2)
          let doc_padded := pad_and_tensorize doc_tokens v.get_pad_index
          let doc_mask := byte_mask doc_padded v.get_pad_index
          let ques_padded := pad_and_tensorize ques_tokens v.get_pad_index
          let ques_mask := byte_mask ques_padded v.get_pad_index
          some (doc_padded, doc_seq_len, doc_mask, ques_padded, ques_seq_len,
                ques_mask,
                pad_and_tensorize answer_start_idx SPAN_PAD_IDX,
                pad_and_tensorize answer_end_idx SPAN_PAD_IDX)

/-- `SquadTensorizer.sort_key` raises `NotImplementedError` unconditionally. -/
def sort_key (_st : SquadTensorizer) (_row : Row) : Except String Nat :=
  Except.error "SquadTensorizer.sort_key() should not be called."

end SquadTensorizer

namespace SquadTensorizer

/-! ### Helper lemmas about the offset-to-token-index map -/

theorem offset_map_get_eq_none (xs : List Nat) (k : Nat) :
    offset_map_get xs k = none ↔ k ∉ xs := by
  induction xs with
  | nil => simp [offset_map_get]
  | cons o rest ih =>
    simp only [offset_map_get]
    cases h : offset_map_get rest k with
    | some j =>
        have hk : k ∈ rest := by
          by_contra hk
          rw [ih.mpr hk] at h
          cases h
        simp [List.mem_cons, hk]
    | none =>
        have hk : k ∉ rest := ih.mp h
        by_cases ho : o = k
        · subst ho
          simp
        · have hko : ¬k = o := fun hko => ho hko.symm
          simp [ho, List.mem_cons, hk, hko]

theorem offset_map_get_some (xs : List Nat) (k j : Nat)
    (h : offset_map_get xs k = some j) : xs.get? j = some k := by
  induction xs generalizing j with
  | nil => simp [offset_map_get] at h
  | cons o rest ih =>
    simp only [offset_map_get] at h
    cases hr : offset_map_get rest k with
    | some j0 =>
        rw [hr] at h
        cases h
        simpa using ih j0 hr
    | none =>
        rw [hr] at h
        by_cases ho : o = k
        · rw [if_pos ho] at h
          cases h
          simp [ho]
        · rw [if_neg ho] at h
          cases h

/-! ### Helper lemmas about lookup offsets -/

theorem lookup_tokens_offsets_length (t : TokenTensorizer) (text : String) :
    (t.lookup_tokens text).2.1.length = (t.lookup_tokens text).2.2.length := by
  simp [TokenTensorizer.lookup_tokens]

theorem doc_offset_pairs_map_fst (st : SquadTensorizer) (row : Row) :
    (st.doc_offset_pairs row).map (fun p => p.1) =
      (st.doc_tensorizer.lookup_tokens row.doc).2.1 := by
  unfold doc_offset_pairs
  exact List.map_fst_zip _ _ (le_of_eq (lookup_tokens_offsets_length _ _))

theorem doc_offset_pairs_map_snd (st : SquadTensorizer) (row : Row) :
    (st.doc_offset_pairs row).map (fun p => p.2) =
      (st.doc_tensorizer.lookup_tokens row.doc).2.2 := by
  unfold doc_offset_pairs
  exact List.map_snd_zip _ _ (ge_of_eq (lookup_tokens_offsets_length _ _))

/-! ### Helper lemmas about numberize -/

theorem numberize_eq_none_of_len_ne (st : SquadTensorizer) (row : Row)
    (v qv dv : Vocabulary) (hv : st.vocab = some v)
    (hq : st.ques_tensorizer.vocab = some qv)
    (hd : st.doc_tensorizer.vocab = some dv)
    (hne : v.len ≠ qv.len ∨ v.len ≠ dv.len) : st.numberize row = none := by
  unfold numberize
  rw [hv, hq, hd]
  simp only []
  rw [if_neg]
  tauto

theorem numberize_isSome_of_len_eq (st : SquadTensorizer) (row : Row)
    (v qv dv : Vocabulary) (hv : st.vocab = some v)
    (hq : st.ques_tensorizer.vocab = some qv)
    (hd : st.doc_tensorizer.vocab = some dv)
    (h1 : v.len = qv.len) (h2 : v.len = dv.len) :
    (st.numberize row).isSome = true := by
  unfold numberize
  rw [hv, hq, hd]
  have h3 : qv.len = dv.len := by omega
  simp [h1, h2, h3]

theorem answer_start_token_indices_eq_nil_iff (st : SquadTensorizer) (row : Row) :
    (st.answer_start_token_indices row) = [] ↔ row.answer_starts = [] := by
  simp [answer_start_token_indices]

theorem answer_end_token_indices_eq_nil_iff (st : SquadTensorizer) (row : Row) :
    (st.answer_end_token_indices row) = [] ↔
      row.answer_starts = [] ∨ row.answers = [] := by
  simp [answer_end_token_indices, List.zip_eq_nil_iff]

/-! ### C2, C3, C4, C5 -/

/-- C2: if a row has no answers at all (empty `answer_starts` or empty
`answers`), or every mapped start index is the sentinel, or every mapped end
index is the sentinel, then `numberize` returns exactly
`([SPAN_PAD_IDX], [SPAN_PAD_IDX])` as the span fields; otherwise the mapped
lists come back unchanged. -/
theorem numberize_collapses_degenerate_spans (st : SquadTensorizer) (row : Row)
    (out : Numberized) (h : st.numberize row = some out) :
    ((row.answer_starts = [] ∨ row.answers = [] ∨
        only_pad (st.answer_start_token_indices row) = true ∨
        only_pad (st.answer_end_token_indices row) = true) →
      out.2.2.2.2.1 = [SPAN_PAD_IDX] ∧ out.2.2.2.2.2 = [SPAN_PAD_IDX]) ∧
    ((row.answer_starts ≠ [] ∧ row.answers ≠ [] ∧
        only_pad (st.answer_start_token_indices row) = false ∧
        only_pad (st.answer_end_token_indices row) = false) →
      out.2.2.2.2.1 = st.answer_start_token_indices row ∧
      out.2.2.2.2.2 = st.answer_end_token_indices row) := by
  unfold numberize at h
  split at h
  case h_2 => cases h
  case h_1 v qv dv hv hq hd =>
    split at h
    case isFalse => cases h
    case isTrue hlen =>
      simp only [] at h
      split at h
      case isTrue hcond =>
        cases h
        refine ⟨fun _ => ⟨rfl, rfl⟩, fun hnc => absurd hcond ?_⟩
        rcases hnc with ⟨hs, ha, hps, hpe⟩
        intro hc
        rcases hc with hc | hc | hc | hc
        · exact hs ((answer_start_token_indices_eq_nil_iff st row).mp
            (List.isEmpty_iff.mp hc))
        · rcases (answer_end_token_indices_eq_nil_iff st row).mp
            (List.isEmpty_iff.mp hc) with h' | h'
          · exact hs h'
          · exact ha h'
        · rw [hps] at hc; cases hc
        · rw [hpe] at hc; cases hc
      case isFalse hcond =>
        cases h
        constructor
        · intro hc
          exfalso
          apply hcond
          rcases hc with hc | hc | hc | hc
          · exact Or.inl (List.isEmpty_iff.mpr
              ((answer_start_token_indices_eq_nil_iff st row).mpr hc))
          · exact Or.inr (Or.inl (List.isEmpty_iff.mpr
              ((answer_end_token_indices_eq_nil_iff st row).mpr (Or.inr hc))))
          · exact Or.inr (Or.inr (Or.inl hc))
          · exact Or.inr (Or.inr (Or.inr hc))
        · intro _
          exact ⟨rfl, rfl⟩

/-- C3: under the vocabulary precondition `numberize` never fails; each raw
answer start offset is looked up in the start-offset map, giving the token
index when present and `SPAN_PAD_IDX = -100` when absent, and each end key
(raw start plus the answer string length) is looked up in the end-offset map
the same way. -/
theorem numberize_span_mapping_total (st : SquadTensorizer) (row : Row)
    (v qv dv : Vocabulary) (hv : st.vocab = some v)
    (hq : st.ques_tensorizer.vocab = some qv)
    (hd : st.doc_tensorizer.vocab = some dv)
    (h1 : v.len = qv.len) (h2 : v.len = dv.len) :
    SPAN_PAD_IDX = -100 ∧
    (st.numberize row).isSome = true ∧
    (∀ i raw, row.answer_starts.get? i = some raw →
      ((st.answer_start_token_indices row).get? i = some SPAN_PAD_IDX ∧
          raw ∉ (st.doc_tensorizer.lookup_tokens row.doc).2.1) ∨
      (∃ j, (st.doc_tensorizer.lookup_tokens row.doc).2.1.get? j = some raw ∧
          (st.answer_start_token_indices row).get? i = some (j : Int))) ∧
    (∀ i raw ans, (row.answer_starts.zip row.answers).get? i = some (raw, ans) →
      ((st.answer_end_token_indices row).get? i = some SPAN_PAD_IDX ∧
          (raw + ans.length) ∉ (st.doc_tensorizer.lookup_tokens row.doc).2.2) ∨
      (∃ j, (st.doc_tensorizer.lookup_tokens row.doc).2.2.get? j =
              some (raw + ans.length) ∧
          (st.answer_end_token_indices row).get? i = some (j : Int))) := by
  refine ⟨rfl, numberize_isSome_of_len_eq st row v qv dv hv hq hd h1 h2, ?_, ?_⟩
  · intro i raw hraw
    have hget : (st.answer_start_token_indices row).get? i =
        some (match offset_map_get
            ((st.doc_offset_pairs row).map (fun p => p.1)) raw with
          | some t => (t : Int)
          | none => SPAN_PAD_IDX) := by
      unfold answer_start_token_indices
      rw [List.get?_map, hraw]
      rfl
    rw [doc_offset_pairs_map_fst] at hget
    cases hm : offset_map_get ((st.doc_tensorizer.lookup_tokens row.doc).2.1) raw with
    | none =>
        rw [hm] at hget
        exact Or.inl ⟨hget, (offset_map_get_eq_none _ _).mp hm⟩
    | some j =>
        rw [hm] at hget
        exact Or.inr ⟨j, offset_map_get_some _ _ _ hm, hget⟩
  · intro i raw ans hraw
    have hget : (st.answer_end_token_indices row).get? i =
        some (match offset_map_get
            ((st.doc_offset_pairs row).map (fun q => q.2)) (raw + ans.length) with
          | some t => (t : Int)
          | none => SPAN_PAD_IDX) := by
      unfold answer_end_token_indices
      rw [List.get?_map, hraw]
      rfl
    rw [doc_offset_pairs_map_snd] at hget
    cases hm : offset_map_get ((st.doc_tensorizer.lookup_tokens row.doc).2.2)
        (raw + ans.length) with
    | none =>
        rw [hm] at hget
        exact Or.inl ⟨hget, (offset_map_get_eq_none _ _).mp hm⟩
    | some j =>
        rw [hm] at hget
        exact Or.inr ⟨j, offset_map_get_some _ _ _ hm, hget⟩

/-- C4: `numberize` hits its fatal assertion on every row whenever the shared
vocabulary size differs from the document or the question sub-tensorizer's
vocabulary size; when all three sizes agree the failure branch is unreachable
and `numberize` produces output. -/
theorem numberize_vocab_size_assertion :
    (∀ (st : SquadTensorizer) (row : Row) (v qv dv : Vocabulary),
        st.vocab = some v → st.ques_tensorizer.vocab = some qv →
        st.doc_tensorizer.vocab = some dv →
        (v.len ≠ qv.len ∨ v.len ≠ dv.len) → st.numberize row = none) ∧
    (∀ (st : SquadTensorizer) (row : Row) (v qv dv : Vocabulary),
        st.vocab = some v → st.ques_tensorizer.vocab = some qv →
        st.doc_tensorizer.vocab = some dv →
        v.len = qv.len → v.len = dv.len → (st.numberize row).isSome = true) :=
  ⟨numberize_eq_none_of_len_ne, numberize_isSome_of_len_eq⟩

/-- C5: `sort_key` raises unconditionally, for every tensorizer state and
every row. -/
theorem sort_key_always_raises (st : SquadTensorizer) (row : Row) :
    st.sort_key row =
      Except.error "SquadTensorizer.sort_key() should not be called." := rfl

/-! ### Helper lemmas about the vocabulary builder and the corpus pass -/

theorem add_token_pad_unk (b : VocabBuilder) (tok : String) :
    (b.add_token tok).pad_index = b.pad_index ∧
    (b.add_token tok).unk_index = b.unk_index := by
  unfold VocabBuilder.add_token
  split <;> exact ⟨rfl, rfl⟩

theorem add_all_pad_unk (b : VocabBuilder) (toks : List String) :
    (b.add_all toks).pad_index = b.pad_index ∧
    (b.add_all toks).unk_index = b.unk_index := by
  induction toks generalizing b with
  | nil => exact ⟨rfl, rfl⟩
  | cons t rest ih =>
      have h1 := add_token_pad_unk b t
      have h2 := ih (b.add_token t)
      exact ⟨h2.1.trans h1.1, h2.2.trans h1.2⟩

theorem mem_add_token_self (b : VocabBuilder) (tok : String) :
    tok ∈ (b.add_token tok).seen := by
  unfold VocabBuilder.add_token
  split
  case isTrue h => exact h
  case isFalse h => simp

theorem mem_add_token_of_mem (b : VocabBuilder) (tok x : String)
    (h : x ∈ b.seen) : x ∈ (b.add_token tok).seen := by
  unfold VocabBuilder.add_token
  split
  · exact h
  · simp [h]

theorem mem_add_all_of_mem (b : VocabBuilder) (toks : List String) (x : String)
    (h : x ∈ b.seen) : x ∈ (b.add_all toks).seen := by
  induction toks generalizing b with
  | nil => exact h
  | cons t rest ih => exact ih (b.add_token t) (mem_add_token_of_mem b t x h)

theorem mem_add_all_self (b : VocabBuilder) (toks : List String) (x : String)
    (h : x ∈ toks) : x ∈ (b.add_all toks).seen := by
  induction toks generalizing b with
  | nil => cases h
  | cons t rest ih =>
      rcases List.mem_cons.mp h with rfl | h
      · exact mem_add_all_of_mem (b.add_token x) rest x (mem_add_token_self b x)
      · exact ih (b.add_token t) h

theorem foldl_init_send_noop (st : SquadTensorizer) (rows : List Row) :
    rows.foldl (st.init_send) InitGen.noop = InitGen.noop := by
  induction rows with
  | nil => rfl
  | cons r rest ih => exact ih

theorem foldl_init_send_building (st : SquadTensorizer) (rows : List Row)
    (b : VocabBuilder) :
    ∃ b', rows.foldl (st.init_send) (InitGen.building b) = InitGen.building b' ∧
      b'.pad_index = b.pad_index ∧ b'.unk_index = b.unk_index ∧
      (∀ x ∈ b.seen, x ∈ b'.seen) ∧
      (∀ r ∈ rows, (∀ t ∈ st.ques_tensorizer.row_tokens r, t ∈ b'.seen) ∧
                   (∀ t ∈ st.doc_tensorizer.row_tokens r, t ∈ b'.seen)) := by
  induction rows generalizing b with
  | nil => exact ⟨b, rfl, rfl, rfl, fun _ h => h, fun r h => absurd h (by simp)⟩
  | cons r0 rest ih =>
      set b1 := (b.add_all (st.ques_tensorizer.row_tokens r0)).add_all
        (st.doc_tensorizer.row_tokens r0) with hb1
      obtain ⟨b', hfold, hpad, hunk, hmono, hrows⟩ := ih b1
      have hb1pad : b1.pad_index = b.pad_index := by
        rw [hb1]
        exact ((add_all_pad_unk _ _).1).trans (add_all_pad_unk _ _).1
      have hb1unk : b1.unk_index = b.unk_index := by
        rw [hb1]
        exact ((add_all_pad_unk _ _).2).trans (add_all_pad_unk _ _).2
      have hmono1 : ∀ x ∈ b.seen, x ∈ b1.seen := by
        intro x hx
        rw [hb1]
        exact mem_add_all_of_mem _ _ _ (mem_add_all_of_mem _ _ _ hx)
      refine ⟨b', hfold, hpad.trans hb1pad, hunk.trans hb1unk,
        fun x hx => hmono x (hmono1 x hx), ?_⟩
      intro r hr
      rcases List.mem_cons.mp hr with rfl | hr
      · constructor
        · intro t ht
          apply hmono
          rw [hb1]
          exact mem_add_all_of_mem _ _ _ (mem_add_all_self _ _ _ ht)
        · intro t ht
          apply hmono
          rw [hb1]
          exact mem_add_all_self _ _ _ ht
      · exact hrows r hr

theorem init_run_of_vocab_some (st : SquadTensorizer) (v : Vocabulary)
    (vb : Option VocabBuilder) (rows : List Row) (h : st.vocab = some v) :
    st.init_run vb rows = st := by
  unfold init_run init_start
  rw [h]
  simp only []
  rw [foldl_init_send_noop]
  rfl

/-! ### C1, C6, C7 -/

/-- C1: the shared vocabulary, the document sub-tensorizer's vocabulary and
the question sub-tensorizer's vocabulary are one and the same vocabulary,
both when it is built at construction from a wordpiece tokenizer's table and
when it is built by the corpus pass; in particular the three sizes agree. -/
theorem shared_vocabulary_invariant :
    (∀ (tk : Tokenizer) (md mq : Nat),
      (from_config tk md mq).vocab = (from_config tk md mq).doc_tensorizer.vocab ∧
      (from_config tk md mq).vocab = (from_config tk md mq).ques_tensorizer.vocab ∧
      (tk.is_word_piece = true → ((from_config tk md mq).vocab).isSome = true) ∧
      ((from_config tk md mq).vocab).map Vocabulary.len =
        ((from_config tk md mq).doc_tensorizer.vocab).map Vocabulary.len ∧
      ((from_config tk md mq).vocab).map Vocabulary.len =
        ((from_config tk md mq).ques_tensorizer.vocab).map Vocabulary.len) ∧
    (∀ (st : SquadTensorizer) (vb : Option VocabBuilder) (rows : List Row),
      st.vocab = none →
      (st.init_run vb rows).vocab = (st.init_run vb rows).doc_tensorizer.vocab ∧
      (st.init_run vb rows).vocab = (st.init_run vb rows).ques_tensorizer.vocab ∧
      ((st.init_run vb rows).vocab).isSome = true ∧
      ((st.init_run vb rows).vocab).map Vocabulary.len =
        ((st.init_run vb rows).doc_tensorizer.vocab).map Vocabulary.len ∧
      ((st.init_run vb rows).vocab).map Vocabulary.len =
        ((st.init_run vb rows).ques_tensorizer.vocab).map Vocabulary.len) := by
  constructor
  · intro tk md mq
    refine ⟨rfl, rfl, ?_, rfl, rfl⟩
    intro h
    simp [from_config, h]
  · intro st vb rows h
    unfold init_run init_start
    rw [h]
    simp only []
    obtain ⟨b', hfold, -⟩ := foldl_init_send_building st rows
      { vb.getD VocabBuilder.default with pad_index := 0, unk_index := 1 }
    rw [hfold]
    simp [init_close]

/-- C6: driving `initialize` on a tensorizer without a vocabulary creates (or
adopts) a builder with pad id 0 and unk id 1, forwards every row's question
and document tokens into the shared vocabulary, finalizes and stores the
vocabulary at end-of-corpus with the pad symbol at id 0 and the unknown
symbol at id 1, drives both sub-tensorizers to the same terminal vocabulary,
and makes any later `initialize` drive take the already-exists branch. -/
theorem init_run_builds_vocabulary (st : SquadTensorizer)
    (vb : Option VocabBuilder) (rows : List Row) (h : st.vocab = none) :
    (∃ b0, st.init_start vb = InitGen.building b0 ∧
      b0.pad_index = 0 ∧ b0.unk_index = 1) ∧
    ∃ v, (st.init_run vb rows).vocab = some v ∧
      v.tokens.get? 0 = some PAD ∧ v.tokens.get? 1 = some UNK ∧
      (st.init_run vb rows).doc_tensorizer.vocab = some v ∧
      (st.init_run vb rows).ques_tensorizer.vocab = some v ∧
      (∀ r ∈ rows, (∀ t ∈ st.ques_tensorizer.row_tokens r, t ∈ v.tokens) ∧
                   (∀ t ∈ st.doc_tensorizer.row_tokens r, t ∈ v.tokens)) ∧
      (∀ (vb2 : Option VocabBuilder) (rows2 : List Row),
        (st.init_run vb rows).init_run vb2 rows2 = st.init_run vb rows) := by
  constructor
  · refine ⟨{ vb.getD VocabBuilder.default with pad_index := 0, unk_index := 1 },
      ?_, rfl, rfl⟩
    unfold init_start
    rw [h]
  · obtain ⟨b', hfold, hpad, hunk, hmono, hrows⟩ := foldl_init_send_building st rows
      { vb.getD VocabBuilder.default with pad_index := 0, unk_index := 1 }
    have hrun : st.init_run vb rows = st.init_close (InitGen.building b') := by
      unfold init_run init_start
      rw [h]
      simp only []
      rw [hfold]
    refine ⟨b'.make_vocab, ?_, rfl, rfl, ?_, ?_, ?_, ?_⟩
    · rw [hrun]; rfl
    · rw [hrun]; rfl
    · rw [hrun]; rfl
    · intro r hr
      have hv : b'.make_vocab.tokens = PAD :: UNK :: b'.seen := rfl
      constructor
      · intro t ht
        rw [hv]
        exact List.mem_cons_of_mem _ (List.mem_cons_of_mem _ ((hrows r hr).1 t ht))
      · intro t ht
        rw [hv]
        exact List.mem_cons_of_mem _ (List.mem_cons_of_mem _ ((hrows r hr).2 t ht))
    · intro vb2 rows2
      apply init_run_of_vocab_some _ b'.make_vocab
      rw [hrun]
      rfl

/-- C7: when the vocabulary already exists, a whole drive of `initialize` is a
no-op pass: priming takes the yield-only branch, every row is consumed
without being forwarded anywhere, and the tensorizer state is left entirely
unchanged. -/
theorem init_run_noop_when_vocab_exists (st : SquadTensorizer) (v : Vocabulary)
    (vb : Option VocabBuilder) (rows : List Row) (h : st.vocab = some v) :
    st.init_start vb = InitGen.noop ∧
    (∀ row : Row, st.init_send InitGen.noop row = InitGen.noop) ∧
    st.init_run vb rows = st := by
  refine ⟨?_, fun _ => rfl, init_run_of_vocab_some st v vb rows h⟩
  unfold init_start
  rw [h]

/-! ### Helper lemmas about batch padding and masks -/

theorem le_foldr_max (l : List Nat) (x : Nat) (h : x ∈ l) :
    x ≤ l.foldr max 0 := by
  induction l with
  | nil => cases h
  | cons a t ih =>
      rcases List.mem_cons.mp h with rfl | h
      · exact Nat.le_max_left _ _
      · exact le_trans (ih h) (Nat.le_max_right _ _)

theorem len_le_batch_max_len {α : Type} (batch : List (List α)) (s : List α)
    (h : s ∈ batch) : s.length ≤ batch_max_len batch :=
  le_foldr_max _ _ (List.mem_map_of_mem _ h)

theorem pad_and_tensorize_get (batch : List (List α)) (p : α) (i : Nat)
    (s : List α) (h : batch.get? i = some s) :
    (pad_and_tensorize batch p).get? i =
      some (s ++ List.replicate (batch_max_len batch - s.length) p) := by
  unfold pad_and_tensorize batch_max_len
  rw [List.get?_map, h]
  rfl

theorem pad_and_tensorize_row_length {α : Type} (batch : List (List α)) (p : α) :
    ∀ r ∈ pad_and_tensorize batch p, r.length = batch_max_len batch := by
  intro r hr
  unfold pad_and_tensorize at hr
  simp only [List.mem_map] at hr
  obtain ⟨s, hs, rfl⟩ := hr
  have hle := len_le_batch_max_len batch s hs
  simp only [List.length_append, List.length_replicate, batch_max_len] at hle ⊢
  omega

theorem byte_mask_get_spec (t : List (List Nat)) (p : Nat) (i j : Nat) :
    (((byte_mask t p)[i]?.bind (fun r => r[j]?)) = some 1 ↔
      (t[i]?.bind (fun r => r[j]?)) = some p) ∧
    (((byte_mask t p)[i]?.bind (fun r => r[j]?)) = some 0 ↔
      ∃ x, t[i]?.bind (fun r => r[j]?) = some x ∧ x ≠ p) := by
  cases ht : t[i]? with
  | none => simp [byte_mask, List.getElem?_map, ht]
  | some r =>
      cases hr : r[j]? with
      | none => simp [byte_mask, List.getElem?_map, ht, hr]
      | some x =>
          by_cases hx : x = p
          · subst hx
            simp [byte_mask, List.getElem?_map, ht, hr]
          · simp [byte_mask, List.getElem?_map, ht, hr, hx]

/-! ### C8, C9, C10 -/

/-- C8: for every nonempty batch `tensorize` returns the 8-tuple (doc tokens,
doc lengths, doc mask, ques tokens, ques lengths, ques mask, answer starts,
answer ends) in this fixed order with the padded document tokens first; token
sequences are padded to the batch maximum length with the vocabulary pad id
and answer span lists to the batch maximum answer count with the sentinel
`SPAN_PAD_IDX`, which differs from the vocabulary pad id. -/
theorem tensorize_fixed_order_and_padding (st : SquadTensorizer) (v : Vocabulary)
    (batch : List Numberized) (hne : batch ≠ []) (hv : st.vocab = some v) :
    ∃ out, st.tensorize batch = some out ∧
      out.1 = pad_and_tensorize (batch.map (fun x => x.1)) v.get_pad_index ∧
      out.2.1 = batch.map (fun x => x.2.1) ∧
      out.2.2.1 = byte_mask out.1 v.get_pad_index ∧
      out.2.2.2.1 = pad_and_tensorize (batch.map (fun x => x.2.2.1)) v.get_pad_index ∧
      out.2.2.2.2.1 = batch.map (fun x => x.2.2.2.1) ∧
      out.2.2.2.2.2.1 = byte_mask out.2.2.2.1 v.get_pad_index ∧
      out.2.2.2.2.2.2.1 =
        pad_and_tensorize (batch.map (fun x => x.2.2.2.2.1)) SPAN_PAD_IDX ∧
      out.2.2.2.2.2.2.2 =
        pad_and_tensorize (batch.map (fun x => x.2.2.2.2.2)) SPAN_PAD_IDX ∧
      (∀ i toks, (batch.map (fun x => x.1)).get? i = some toks →
        out.1.get? i = some (toks ++ List.replicate
          (batch_max_len (batch.map (fun x => x.1)) - toks.length)
          v.get_pad_index)) ∧
      (∀ r ∈ out.1, r.length = batch_max_len (batch.map (fun x => x.1))) ∧
      (∀ i toks, (batch.map (fun x => x.2.2.1)).get? i = some toks →
        out.2.2.2.1.get? i = some (toks ++ List.replicate
          (batch_max_len (batch.map (fun x => x.2.2.1)) - toks.length)
          v.get_pad_index)) ∧
      (∀ r ∈ out.2.2.2.1, r.length = batch_max_len (batch.map (fun x => x.2.2.1))) ∧
      (∀ i s, (batch.map (fun x => x.2.2.2.2.1)).get? i = some s →
        out.2.2.2.2.2.2.1.get? i = some (s ++ List.replicate
          (batch_max_len (batch.map (fun x => x.2.2.2.2.1)) - s.length)
          SPAN_PAD_IDX)) ∧
      (∀ i s, (batch.map (fun x => x.2.2.2.2.2)).get? i = some s →
        out.2.2.2.2.2.2.2.get? i = some (s ++ List.replicate
          (batch_max_len (batch.map (fun x => x.2.2.2.2.2)) - s.length)
          SPAN_PAD_IDX)) ∧
      ((v.get_pad_index : Int) ≠ SPAN_PAD_IDX) := by
  cases batch with
  | nil => exact absurd rfl hne
  | cons x rest =>
      unfold tensorize
      rw [hv]
      refine ⟨_, rfl, rfl, rfl, rfl, rfl, rfl, rfl, rfl, rfl,
        ?_, ?_, ?_, ?_, ?_, ?_, ?_⟩
      · intro i toks h
        exact pad_and_tensorize_get _ _ _ _ h
      · exact pad_and_tensorize_row_length _ _
      · intro i toks h
        exact pad_and_tensorize_get _ _ _ _ h
      · exact pad_and_tensorize_row_length _ _
      · intro i s h
        exact pad_and_tensorize_get _ _ _ _ h
      · intro i s h
        exact pad_and_tensorize_get _ _ _ _ h
      · intro hc
        simp only [SPAN_PAD_IDX] at hc
        omega

set_option maxHeartbeats 1000000 in
/-- C9: in `tensorize`'s output the document and question pad masks are 1
exactly at the positions where the corresponding padded token tensor carries
the vocabulary pad id, and 0 at every other in-range position. -/
theorem tensorize_masks_mark_pad_positions (st : SquadTensorizer) (v : Vocabulary)
    (batch : List Numberized) (out : SquadBatch) (hv : st.vocab = some v)
    (h : st.tensorize batch = some out) :
    (∀ (i j : Nat),
      ((out.2.2.1)[i]?.bind (fun r : List Nat => r[j]?) = some 1 ↔
        (out.1)[i]?.bind (fun r : List Nat => r[j]?) = some v.get_pad_index) ∧
      ((out.2.2.1)[i]?.bind (fun r : List Nat => r[j]?) = some 0 ↔
        ∃ x, (out.1)[i]?.bind (fun r : List Nat => r[j]?) = some x ∧
          x ≠ v.get_pad_index)) ∧
    (∀ (i j : Nat),
      ((out.2.2.2.2.2.1)[i]?.bind (fun r : List Nat => r[j]?) = some 1 ↔
        (out.2.2.2.1)[i]?.bind (fun r : List Nat => r[j]?) = some v.get_pad_index) ∧
      ((out.2.2.2.2.2.1)[i]?.bind (fun r : List Nat => r[j]?) = some 0 ↔
        ∃ x, (out.2.2.2.1)[i]?.bind (fun r : List Nat => r[j]?) = some x ∧
          x ≠ v.get_pad_index)) := by
  cases batch with
  | nil => cases h
  | cons x rest =>
      unfold tensorize at h
      rw [hv] at h
      cases h
      constructor
      · intro i j
        exact byte_mask_get_spec
          (pad_and_tensorize ((x :: rest).map (fun y => y.1)) v.get_pad_index)
          v.get_pad_index i j
      · intro i j
        exact byte_mask_get_spec
          (pad_and_tensorize ((x :: rest).map (fun y => y.2.2.1)) v.get_pad_index)
          v.get_pad_index i j

/-- C10: `tensorize` fails on the empty batch (the unzip raises before any
tensor is produced), and succeeds on every nonempty batch when a vocabulary
is present, so its output guarantees are conditional on a nonempty batch. -/
theorem tensorize_requires_nonempty_batch :
    (∀ st : SquadTensorizer, st.tensorize [] = none) ∧
    (∀ (st : SquadTensorizer) (v : Vocabulary) (batch : List Numberized),
      st.vocab = some v → batch ≠ [] → (st.tensorize batch).isSome = true) := by
  constructor
  · intro st
    rfl
  · intro st v batch hv hne
    cases batch with
    | nil => exact absurd rfl hne
    | cons x rest =>
        unfold tensorize
        rw [hv]
        rfl

/-! ### Concrete fixtures for the witnesses -/

/-- A tiny concrete tokenizer: splits the two texts used by the fixtures. -/
def exTokenize : String → List (String × Nat × Nat) := fun s =>
  if s = "ab cd" then [("ab", 0, 2), ("cd", 3, 5)]
  else if s = "q" then [("q", 0, 1)]
  else []

def exTok : Tokenizer := ⟨exTokenize, false, []⟩

def exVocab : Vocabulary := ⟨[PAD, UNK, "ab", "cd", "q"], 0⟩

def exVocabSmall : Vocabulary := ⟨[PAD, UNK], 0⟩

def exDocT : TokenTensorizer := ⟨Row.doc, exTok, some exVocab, 256⟩

def exQuesT : TokenTensorizer := ⟨Row.question, exTok, some exVocab, 64⟩

def exSquad : SquadTensorizer := ⟨exDocT, exQuesT, exTok, some exVocab, none⟩

def exSquadBad : SquadTensorizer := ⟨exDocT, exQuesT, exTok, some exVocabSmall, none⟩

def exDocTNoV : TokenTensorizer := ⟨Row.doc, exTok, none, 256⟩

def exQuesTNoV : TokenTensorizer := ⟨Row.question, exTok, none, 64⟩

def exSquadNoVocab : SquadTensorizer := ⟨exDocTNoV, exQuesTNoV, exTok, none, none⟩

def exRow : Row := ⟨"ab cd", "q", ["cd"], [3]⟩

def exBatch : List Numberized :=
  [([2, 3], 2, [4], 1, [1], [1]),
   ([2], 1, [4, 4], 2, [SPAN_PAD_IDX], [SPAN_PAD_IDX])]

def exOut : SquadBatch :=
  ([[2, 3], [2, 0]], [2, 1], [[0, 0], [0, 1]], [[4, 0], [4, 4]], [1, 2],
   [[0, 1], [0, 0]], [[1], [-100]], [[1], [-100]])

/-! ### Witnesses -/

/-- Witness for C1 at a concrete tensorizer without a vocabulary. -/
theorem shared_vocabulary_invariant_witness :
    exSquadNoVocab.vocab = none ∧
    ((exSquadNoVocab.init_run none [exRow]).vocab =
        (exSquadNoVocab.init_run none [exRow]).doc_tensorizer.vocab ∧
      (exSquadNoVocab.init_run none [exRow]).vocab =
        (exSquadNoVocab.init_run none [exRow]).ques_tensorizer.vocab ∧
      ((exSquadNoVocab.init_run none [exRow]).vocab).isSome = true ∧
      ((exSquadNoVocab.init_run none [exRow]).vocab).map Vocabulary.len =
        ((exSquadNoVocab.init_run none [exRow]).doc_tensorizer.vocab).map
          Vocabulary.len ∧
      ((exSquadNoVocab.init_run none [exRow]).vocab).map Vocabulary.len =
        ((exSquadNoVocab.init_run none [exRow]).ques_tensorizer.vocab).map
          Vocabulary.len) :=
  ⟨rfl, shared_vocabulary_invariant.2 exSquadNoVocab none [exRow] rfl⟩

/-- Witness for C2 at a concrete row whose single answer maps to token 1. -/
theorem numberize_collapses_degenerate_spans_witness :
    exSquad.numberize exRow = some ([2, 3], 2, [4], 1, [1], [1]) ∧
    (((exRow.answer_starts = [] ∨ exRow.answers = [] ∨
        only_pad (exSquad.answer_start_token_indices exRow) = true ∨
        only_pad (exSquad.answer_end_token_indices exRow) = true) →
      (([2, 3], 2, [4], 1, [1], [1]) : Numberized).2.2.2.2.1 = [SPAN_PAD_IDX] ∧
      (([2, 3], 2, [4], 1, [1], [1]) : Numberized).2.2.2.2.2 = [SPAN_PAD_IDX]) ∧
    ((exRow.answer_starts ≠ [] ∧ exRow.answers ≠ [] ∧
        only_pad (exSquad.answer_start_token_indices exRow) = false ∧
        only_pad (exSquad.answer_end_token_indices exRow) = false) →
      (([2, 3], 2, [4], 1, [1], [1]) : Numberized).2.2.2.2.1 =
        exSquad.answer_start_token_indices exRow ∧
      (([2, 3], 2, [4], 1, [1], [1]) : Numberized).2.2.2.2.2 =
        exSquad.answer_end_token_indices exRow)) :=
  ⟨rfl, numberize_collapses_degenerate_spans exSquad exRow
    ([2, 3], 2, [4], 1, [1], [1]) rfl⟩

/-- Witness for C3 at a concrete tensorizer satisfying the precondition. -/
theorem numberize_span_mapping_total_witness :
    (exSquad.vocab = some exVocab ∧
      exSquad.ques_tensorizer.vocab = some exVocab ∧
      exSquad.doc_tensorizer.vocab = some exVocab ∧
      exVocab.len = exVocab.len ∧ exVocab.len = exVocab.len) ∧
    (SPAN_PAD_IDX = -100 ∧
      (exSquad.numberize exRow).isSome = true ∧
      (∀ i raw, exRow.answer_starts.get? i = some raw →
        ((exSquad.answer_start_token_indices exRow).get? i = some SPAN_PAD_IDX ∧
            raw ∉ (exSquad.doc_tensorizer.lookup_tokens exRow.doc).2.1) ∨
        (∃ j, (exSquad.doc_tensorizer.lookup_tokens exRow.doc).2.1.get? j =
                some raw ∧
            (exSquad.answer_start_token_indices exRow).get? i = some (j : Int))) ∧
      (∀ i raw ans,
          (exRow.answer_starts.zip exRow.answers).get? i = some (raw, ans) →
        ((exSquad.answer_end_token_indices exRow).get? i = some SPAN_PAD_IDX ∧
            (raw + ans.length) ∉
              (exSquad.doc_tensorizer.lookup_tokens exRow.doc).2.2) ∨
        (∃ j, (exSquad.doc_tensorizer.lookup_tokens exRow.doc).2.2.get? j =
                some (raw + ans.length) ∧
            (exSquad.answer_end_token_indices exRow).get? i = some (j : Int)))) :=
  ⟨⟨rfl, rfl, rfl, rfl, rfl⟩,
    numberize_span_mapping_total exSquad exRow exVocab exVocab exVocab
      rfl rfl rfl rfl rfl⟩

/-- Witness for C4: a mismatched shared vocabulary makes `numberize` fail and
the matched fixture succeeds. -/
theorem numberize_vocab_size_assertion_witness :
    (exSquadBad.vocab = some exVocabSmall ∧
      exSquadBad.ques_tensorizer.vocab = some exVocab ∧
      exSquadBad.doc_tensorizer.vocab = some exVocab ∧
      (exVocabSmall.len ≠ exVocab.len ∨ exVocabSmall.len ≠ exVocab.len) ∧
      exSquadBad.numberize exRow = none) ∧
    (exSquad.vocab = some exVocab ∧
      exVocab.len = exVocab.len ∧
      (exSquad.numberize exRow).isSome = true) :=
  ⟨⟨rfl, rfl, rfl, Or.inl (by decide),
      numberize_vocab_size_assertion.1 exSquadBad exRow exVocabSmall exVocab
        exVocab rfl rfl rfl (Or.inl (by decide))⟩,
    ⟨rfl, rfl,
      numberize_vocab_size_assertion.2 exSquad exRow exVocab exVocab exVocab
        rfl rfl rfl rfl rfl⟩⟩

/-- Witness for C6 at a concrete tensorizer without a vocabulary. -/
theorem init_run_builds_vocabulary_witness :
    exSquadNoVocab.vocab = none ∧
    ((∃ b0, exSquadNoVocab.init_start none = InitGen.building b0 ∧
        b0.pad_index = 0 ∧ b0.unk_index = 1) ∧
      ∃ v, (exSquadNoVocab.init_run none [exRow]).vocab = some v ∧
        v.tokens.get? 0 = some PAD ∧ v.tokens.get? 1 = some UNK ∧
        (exSquadNoVocab.init_run none [exRow]).doc_tensorizer.vocab = some v ∧
        (exSquadNoVocab.init_run none [exRow]).ques_tensorizer.vocab = some v ∧
        (∀ r ∈ [exRow],
          (∀ t ∈ exSquadNoVocab.ques_tensorizer.row_tokens r, t ∈ v.tokens) ∧
          (∀ t ∈ exSquadNoVocab.doc_tensorizer.row_tokens r, t ∈ v.tokens)) ∧
        (∀ (vb2 : Option VocabBuilder) (rows2 : List Row),
          (exSquadNoVocab.init_run none [exRow]).init_run vb2 rows2 =
            exSquadNoVocab.init_run none [exRow])) :=
  ⟨rfl, init_run_builds_vocabulary exSquadNoVocab none [exRow] rfl⟩

/-- Witness for C7 at a concrete tensorizer whose vocabulary exists. -/
theorem init_run_noop_when_vocab_exists_witness :
    exSquad.vocab = some exVocab ∧
    (exSquad.init_start none = InitGen.noop ∧
      (∀ row : Row, exSquad.init_send InitGen.noop row = InitGen.noop) ∧
      exSquad.init_run none [exRow] = exSquad) :=
  ⟨rfl, init_run_noop_when_vocab_exists exSquad exVocab none [exRow] rfl⟩

/-- Witness for C8 at a concrete two-example batch. -/
theorem tensorize_fixed_order_and_padding_witness :
    (exBatch ≠ [] ∧ exSquad.vocab = some exVocab) ∧
    (∃ out, exSquad.tensorize exBatch = some out ∧
      out.1 = pad_and_tensorize (exBatch.map (fun x => x.1))
        exVocab.get_pad_index ∧
      out.2.1 = exBatch.map (fun x => x.2.1) ∧
      out.2.2.1 = byte_mask out.1 exVocab.get_pad_index ∧
      out.2.2.2.1 = pad_and_tensorize (exBatch.map (fun x => x.2.2.1))
        exVocab.get_pad_index ∧
      out.2.2.2.2.1 = exBatch.map (fun x => x.2.2.2.1) ∧
      out.2.2.2.2.2.1 = byte_mask out.2.2.2.1 exVocab.get_pad_index ∧
      out.2.2.2.2.2.2.1 =
        pad_and_tensorize (exBatch.map (fun x => x.2.2.2.2.1)) SPAN_PAD_IDX ∧
      out.2.2.2.2.2.2.2 =
        pad_and_tensorize (exBatch.map (fun x => x.2.2.2.2.2)) SPAN_PAD_IDX ∧
      (∀ i toks, (exBatch.map (fun x => x.1)).get? i = some toks →
        out.1.get? i = some (toks ++ List.replicate
          (batch_max_len (exBatch.map (fun x => x.1)) - toks.length)
          exVocab.get_pad_index)) ∧
      (∀ r ∈ out.1, r.length = batch_max_len (exBatch.map (fun x => x.1))) ∧
      (∀ i toks, (exBatch.map (fun x => x.2.2.1)).get? i = some toks →
        out.2.2.2.1.get? i = some (toks ++ List.replicate
          (batch_max_len (exBatch.map (fun x => x.2.2.1)) - toks.length)
          exVocab.get_pad_index)) ∧
      (∀ r ∈ out.2.2.2.1,
        r.length = batch_max_len (exBatch.map (fun x => x.2.2.1))) ∧
      (∀ i s, (exBatch.map (fun x => x.2.2.2.2.1)).get? i = some s →
        out.2.2.2.2.2.2.1.get? i = some (s ++ List.replicate
          (batch_max_len (exBatch.map (fun x => x.2.2.2.2.1)) - s.length)
          SPAN_PAD_IDX)) ∧
      (∀ i s, (exBatch.map (fun x => x.2.2.2.2.2)).get? i = some s →
        out.2.2.2.2.2.2.2.get? i = some (s ++ List.replicate
          (batch_max_len (exBatch.map (fun x => x.2.2.2.2.2)) - s.length)
          SPAN_PAD_IDX)) ∧
      ((exVocab.get_pad_index : Int) ≠ SPAN_PAD_IDX)) :=
  ⟨⟨List.cons_ne_nil _ _, rfl⟩,
    tensorize_fixed_order_and_padding exSquad exVocab exBatch
      (List.cons_ne_nil _ _) rfl⟩

/-- Witness for C9 at a concrete two-example batch and its output tensors. -/
theorem tensorize_masks_mark_pad_positions_witness :
    (exSquad.vocab = some exVocab ∧ exSquad.tensorize exBatch = some exOut) ∧
    ((∀ (i j : Nat),
      ((exOut.2.2.1)[i]?.bind (fun r : List Nat => r[j]?) = some 1 ↔
        (exOut.1)[i]?.bind (fun r : List Nat => r[j]?) =
          some exVocab.get_pad_index) ∧
      ((exOut.2.2.1)[i]?.bind (fun r : List Nat => r[j]?) = some 0 ↔
        ∃ x, (exOut.1)[i]?.bind (fun r : List Nat => r[j]?) = some x ∧
          x ≠ exVocab.get_pad_index)) ∧
    (∀ (i j : Nat),
      ((exOut.2.2.2.2.2.1)[i]?.bind (fun r : List Nat => r[j]?) = some 1 ↔
        (exOut.2.2.2.1)[i]?.bind (fun r : List Nat => r[j]?) =
          some exVocab.get_pad_index) ∧
      ((exOut.2.2.2.2.2.1)[i]?.bind (fun r : List Nat => r[j]?) = some 0 ↔
        ∃ x, (exOut.2.2.2.1)[i]?.bind (fun r : List Nat => r[j]?) = some x ∧
          x ≠ exVocab.get_pad_index))) :=
  ⟨⟨rfl, rfl⟩,
    tensorize_masks_mark_pad_positions exSquad exVocab exBatch exOut rfl rfl⟩

/-- Witness for C10: the empty batch fails, the concrete nonempty batch
succeeds. -/
theorem tensorize_requires_nonempty_batch_witness :
    (exSquad.tensorize [] = none) ∧
    (exSquad.vocab = some exVocab ∧ exBatch ≠ [] ∧
      (exSquad.tensorize exBatch).isSome = true) :=
  ⟨tensorize_requires_nonempty_batch.1 exSquad,
    ⟨rfl, List.cons_ne_nil _ _,
      tensorize_requires_nonempty_batch.2 exSquad exVocab exBatch rfl
        (List.cons_ne_nil _ _)⟩⟩
